import Mathlib

/-!
Verification of the BPCells streaming matrix transform and statistics core.

The embedding models `src/matrixTransforms/Min.cpp` and
`src/matrixIterators/MatrixStats.cpp`.  Matrix values are `double` in the
source; every operation verified here (`std::min`, comparisons, array
copying) is exact on doubles, so values are embedded as rationals `ℚ`.

A loader stage's `load()` is modelled as a function from the upstream
outcome — a pair of the upstream's boolean result and the chunk buffer
state after the upstream call — to the stage's own outcome of the same
shape.  This mirrors the C++ pattern
`if (!loader->load()) return false; ...mutate buffers...; return true;`.
-/

namespace BPCells

/-- A sparse-matrix chunk: parallel value / row-index arrays plus the
current column index.  `capacity` is the number of stored entries. -/
structure Chunk where
  val : List ℚ
  row : List ℕ
  col : ℕ
deriving DecidableEq

/-- `capacity()` accessor: the number of stored entries of the chunk. -/
def Chunk.capacity (c : Chunk) : ℕ := c.val.length

/-- Chunk well-formedness invariant from the data model: the row-index
array and the value array have equal length. -/
def Chunk.wf (c : Chunk) : Prop := c.row.length = c.val.length

instance (c : Chunk) : Decidable c.wf := by
  unfold Chunk.wf
  infer_instance

/-- The Parameter Provider ("fit"): read-only lookup surface with the three
operations `global_params`, `row_params`, `col_params` of the source's
`MatrixTransformFit`. -/
structure MatrixTransformFit where
  global_params : ℕ → ℚ
  row_params : ℕ → ℕ → ℚ
  col_params : ℕ → ℕ → ℚ

/-- `Min::load()` from `Min.cpp`: pulls upstream; on upstream failure
returns `false` with buffers untouched; otherwise clamps every value of
the chunk with the global parameter `fit.global_params(0)`. -/
def Min.load (fit : MatrixTransformFit) (up : Bool × Chunk) : Bool × Chunk :=
  if !up.1 then (false, up.2)
  else
    (true, { up.2 with
      val := up.2.val.map (fun v => min v (fit.global_params 0)) })

/-- `MinByRow::load()` from `Min.cpp`: on upstream success clamps entry `i`
with `fit.row_params(0, row_data[i])`. -/
def MinByRow.load (fit : MatrixTransformFit) (up : Bool × Chunk) : Bool × Chunk :=
  if !up.1 then (false, up.2)
  else
    (true, { up.2 with
      val := List.zipWith (fun v r => min v (fit.row_params 0 r))
        up.2.val up.2.row })

/-- `MinByCol::load()` from `Min.cpp`: on upstream success looks up
`col_min = fit.col_params(0, currentCol())` once and clamps every entry of
the chunk with it. -/
def MinByCol.load (fit : MatrixTransformFit) (up : Bool × Chunk) : Bool × Chunk :=
  if !up.1 then (false, up.2)
  else
    let col_min := fit.col_params 0 up.2.col
    (true, { up.2 with val := up.2.val.map (fun v => min v col_min) })

/-- `StatsResult` from `MatrixStats.cpp`: two stats matrices, each a list
of statistic rows (row 0 = nonzeros, row 1 = mean, row 2 = variance). -/
structure StatsResult where
  row_stats : List (List ℚ)
  col_stats : List (List ℚ)
deriving DecidableEq

/-- `StatsResult::rowNonzeros()`: errors when fewer than 1 statistic row
was computed, otherwise returns row 0 of `row_stats`. -/
def StatsResult.rowNonzeros (s : StatsResult) : Except String (List ℚ) :=
  if s.row_stats.length < 1 then
    Except.error "Nonzero not calculated in this StatsResult"
  else Except.ok (s.row_stats.getD 0 [])

/-- `StatsResult::rowMean()`: errors when fewer than 2 statistic rows were
computed, otherwise returns row 1 of `row_stats`. -/
def StatsResult.rowMean (s : StatsResult) : Except String (List ℚ) :=
  if s.row_stats.length < 2 then
    Except.error "Mean not calculated in this StatsResult"
  else Except.ok (s.row_stats.getD 1 [])

/-- `StatsResult::rowVariance()`: errors when fewer than 3 statistic rows
were computed, otherwise returns row 2 of `row_stats`. -/
def StatsResult.rowVariance (s : StatsResult) : Except String (List ℚ) :=
  if s.row_stats.length < 3 then
    Except.error "Variance not calculated in this StatsResult"
  else Except.ok (s.row_stats.getD 2 [])

/-- `StatsResult::colNonzeros()`: as `rowNonzeros` but over `col_stats`. -/
def StatsResult.colNonzeros (s : StatsResult) : Except String (List ℚ) :=
  if s.col_stats.length < 1 then
    Except.error "Nonzero not calculated in this StatsResult"
  else Except.ok (s.col_stats.getD 0 [])

/-- `StatsResult::colMean()`: as `rowMean` but over `col_stats`. -/
def StatsResult.colMean (s : StatsResult) : Except String (List ℚ) :=
  if s.col_stats.length < 2 then
    Except.error "Mean not calculated in this StatsResult"
  else Except.ok (s.col_stats.getD 1 [])

/-- `StatsResult::colVariance()`: as `rowVariance` but over `col_stats`. -/
def StatsResult.colVariance (s : StatsResult) : Except String (List ℚ) :=
  if s.col_stats.length < 3 then
    Except.error "Variance not calculated in this StatsResult"
  else Except.ok (s.col_stats.getD 2 [])

/-- `StatsResult::transpose()`: swaps the two stats arrays. -/
def StatsResult.transpose (s : StatsResult) : StatsResult :=
  { row_stats := s.col_stats, col_stats := s.row_stats }

/-- Concrete chunk from the spec's concrete scenario:
column 0, `value=[1,5,3]`, `row=[0,2,4]`. -/
def chunkEx : Chunk := { val := [1, 5, 3], row := [0, 2, 4], col := 0 }

/-- Concrete parameter provider from the spec's concrete scenario. -/
def fitEx : MatrixTransformFit :=
  { global_params := fun _ => 2
  , row_params := fun _ r => if r = 0 then 0 else if r = 2 then 10 else 1
  , col_params := fun _ c => if c = 0 then 4 else 7 }

/-- A second provider agreeing with `fitEx` on parameter index 0 only. -/
def fitEx2 : MatrixTransformFit :=
  { global_params := fun i => if i = 0 then 2 else 99
  , row_params := fun i r =>
      if i = 0 then (if r = 0 then 0 else if r = 2 then 10 else 1) else 99
  , col_params := fun i c => if i = 0 then (if c = 0 then 4 else 7) else 99 }

/-- A concrete StatsResult with all three statistics populated. -/
def statsEx : StatsResult :=
  { row_stats := [[1], [2], [7]], col_stats := [[4], [5], [6]] }

theorem getD_map_of_lt (f : ℚ → ℚ) :
    ∀ (l : List ℚ) (i : ℕ), i < l.length →
      (l.map f).getD i 0 = f (l.getD i 0)
  | _ :: _, 0, _ => rfl
  | _ :: l, i + 1, h => getD_map_of_lt f l i (Nat.lt_of_succ_lt_succ h)

theorem getD_zipWith_of_lt (g : ℚ → ℕ → ℚ) :
    ∀ (l : List ℚ) (r : List ℕ) (i : ℕ), i < l.length → i < r.length →
      (List.zipWith g l r).getD i 0 = g (l.getD i 0) (r.getD i 0)
  | _ :: _, _ :: _, 0, _, _ => rfl
  | _ :: l, _ :: r, i + 1, hl, hr =>
      getD_zipWith_of_lt g l r i (Nat.lt_of_succ_lt_succ hl)
        (Nat.lt_of_succ_lt_succ hr)

theorem min_zip_map_comm (p : ℕ → ℚ) (q : ℚ) :
    ∀ (v : List ℚ) (r : List ℕ),
      (List.zipWith (fun a b => min a (p b)) v r).map (fun a => min a q)
        = List.zipWith (fun a b => min a (p b))
            (v.map (fun a => min a q)) r
  | [], _ => rfl
  | _ :: _, [] => rfl
  | a :: v, b :: r => by
      simp only [List.zipWith_cons_cons, List.map_cons]
      rw [min_zip_map_comm p q v r, min_right_comm]

/-- Both minimum stages with entry-varying parameters commute: because
`min` is associative and commutative, wrapping by-row inside by-column
produces the same outcome as the reverse nesting, for every upstream
outcome and every parameter provider. -/
theorem minStages_comm (fit : MatrixTransformFit) (u : Bool × Chunk) :
    MinByCol.load fit (MinByRow.load fit u)
      = MinByRow.load fit (MinByCol.load fit u) := by
  rcases u with ⟨b, c⟩
  cases b
  · rfl
  · simp only [MinByRow.load, MinByCol.load, Bool.not_true, Bool.false_eq_true,
      if_false, Prod.mk.injEq, true_and]
    exact congrArg (fun l => Chunk.mk l c.row c.col)
      (min_zip_map_comm (fun r => fit.row_params 0 r)
        (fit.col_params 0 c.col) c.val c.row)

/-- C1: for every chunk successfully pulled through a global-mode minimum
stage with parameter `p = fit.global_params(0)`, every entry `i` of the
chunk equals `min(original[i], p)` after `load()`, and the result is both
at most the original value and at most `p`. -/
theorem C1_min_global_clamp (fit : MatrixTransformFit) (c : Chunk) (i : ℕ)
    (hi : i < c.capacity) :
    (Min.load fit (true, c)).2.val.getD i 0
        = min (c.val.getD i 0) (fit.global_params 0)
      ∧ (Min.load fit (true, c)).2.val.getD i 0 ≤ c.val.getD i 0
      ∧ (Min.load fit (true, c)).2.val.getD i 0 ≤ fit.global_params 0 := by
  have h : (Min.load fit (true, c)).2.val.getD i 0
      = min (c.val.getD i 0) (fit.global_params 0) := by
    simp only [Min.load, Bool.not_true, Bool.false_eq_true, if_false]
    exact getD_map_of_lt _ c.val i hi
  exact ⟨h, h ▸ min_le_left _ _, h ▸ min_le_right _ _⟩

theorem C1_min_global_clamp_witness :
    0 < chunkEx.capacity
      ∧ (Min.load fitEx (true, chunkEx)).2.val.getD 0 0
          = min (chunkEx.val.getD 0 0) (fitEx.global_params 0) :=
  ⟨by decide, (C1_min_global_clamp fitEx chunkEx 0 (by decide)).1⟩

/-- C2: for every chunk successfully pulled through a per-row minimum
stage, entry `i` equals `min(original[i], fit.row_params(0, rowIndex[i]))`
after `load()`; and the parameter applied to an entry is a function of
that entry's value and row index only — any entry of any other chunk with
the same value and row index produces the same result, whatever its chunk
or column. -/
theorem C2_min_by_row (fit : MatrixTransformFit) (c : Chunk) (hwf : c.wf)
    (i : ℕ) (hi : i < c.capacity) :
    (MinByRow.load fit (true, c)).2.val.getD i 0
        = min (c.val.getD i 0) (fit.row_params 0 (c.row.getD i 0))
      ∧ ∀ (c2 : Chunk) (j : ℕ), j < c2.capacity → j < c2.row.length →
          c2.val.getD j 0 = c.val.getD i 0 →
          c2.row.getD j 0 = c.row.getD i 0 →
          (MinByRow.load fit (true, c2)).2.val.getD j 0
            = (MinByRow.load fit (true, c)).2.val.getD i 0 := by
  have key : ∀ (d : Chunk) (k : ℕ), k < d.capacity → k < d.row.length →
      (MinByRow.load fit (true, d)).2.val.getD k 0
        = min (d.val.getD k 0) (fit.row_params 0 (d.row.getD k 0)) := by
    intro d k hk hkr
    simp only [MinByRow.load, Bool.not_true, Bool.false_eq_true, if_false]
    exact getD_zipWith_of_lt _ d.val d.row k hk hkr
  have hir : i < c.row.length := by
    unfold Chunk.wf at hwf
    unfold Chunk.capacity at hi
    omega
  refine ⟨key c i hi hir, ?_⟩
  intro c2 j hj hjr hval hrow
  rw [key c2 j hj hjr, key c i hi hir, hval, hrow]

theorem C2_min_by_row_witness :
    chunkEx.wf ∧ 1 < chunkEx.capacity
      ∧ (MinByRow.load fitEx (true, chunkEx)).2.val.getD 1 0
          = min (chunkEx.val.getD 1 0) (fitEx.row_params 0 (chunkEx.row.getD 1 0)) :=
  ⟨by decide, by decide,
    (C2_min_by_row fitEx chunkEx (by decide) 1 (by decide)).1⟩

/-- C3: for every chunk successfully pulled through a per-column minimum
stage, every entry is clamped with the identical parameter
`fit.col_params(0, currentCol())`; and two chunks with different
current-column values may use different parameters — witnessed by a
provider and two chunks with equal values but different columns that
produce different result arrays. -/
theorem C3_min_by_col (fit : MatrixTransformFit) (c : Chunk) (i : ℕ)
    (hi : i < c.capacity) :
    (MinByCol.load fit (true, c)).2.val.getD i 0
        = min (c.val.getD i 0) (fit.col_params 0 c.col)
      ∧ ∃ (fit2 : MatrixTransformFit) (c1 c2 : Chunk),
          c1.val = c2.val ∧ c1.col ≠ c2.col
          ∧ (MinByCol.load fit2 (true, c1)).2.val
              ≠ (MinByCol.load fit2 (true, c2)).2.val := by
  constructor
  · simp only [MinByCol.load, Bool.not_true, Bool.false_eq_true, if_false]
    exact getD_map_of_lt _ c.val i hi
  · exact ⟨fitEx, { val := [5], row := [0], col := 0 },
      { val := [5], row := [0], col := 1 }, rfl, by decide, by decide⟩

theorem C3_min_by_col_witness :
    0 < chunkEx.capacity
      ∧ (MinByCol.load fitEx (true, chunkEx)).2.val.getD 0 0
          = min (chunkEx.val.getD 0 0) (fitEx.col_params 0 chunkEx.col) :=
  ⟨by decide, (C3_min_by_col fitEx chunkEx 0 (by decide)).1⟩

/-- C4 counterexample: there are no chunk contents and no per-row /
per-column parameters for which nesting the by-row stage inside the
by-column stage yields a different result array from the reverse nesting:
the two compositions always agree, because `min` is associative and
commutative. -/
theorem C4_order_counterexample :
    ¬ ∃ (fit : MatrixTransformFit) (u : Bool × Chunk),
        (MinByCol.load fit (MinByRow.load fit u)).2.val
          ≠ (MinByRow.load fit (MinByCol.load fit u)).2.val := by
  rintro ⟨fit, u, hne⟩
  exact hne (congrArg (fun p => p.2.val) (minStages_comm fit u))

/-- C4 amended: chain order never matters for the minimum stages —
composing minimum-by-row then minimum-by-column yields exactly the same
outcome (flag, values, rows, column) as the reverse composition, for every
upstream outcome and parameter provider; stages apply in the declared wrap
order with the outermost stage applied last, which is why the outer stage
operates on the inner stage's output. -/
theorem C4_order_never_matters (fit : MatrixTransformFit) (u : Bool × Chunk) :
    MinByCol.load fit (MinByRow.load fit u)
      = MinByRow.load fit (MinByCol.load fit u) :=
  minStages_comm fit u

theorem isOk_ite (msg : String) (v : List ℚ) (cond : Prop) [Decidable cond] :
    ((if cond then Except.error msg else Except.ok v)
        : Except String (List ℚ)).isOk = true ↔ ¬ cond := by
  split <;> simp_all [Except.isOk, Except.toBool]

/-- C5: each named accessor of a StatsResult fails with its "not
calculated" error exactly when the result holds fewer populated statistic
rows than the accessor's position requires — never a default value — and
otherwise returns the corresponding populated statistic row. -/
theorem C5_stats_accessors (s : StatsResult) :
    ((s.rowNonzeros = Except.error "Nonzero not calculated in this StatsResult"
        ↔ s.row_stats.length < 1)
      ∧ (1 ≤ s.row_stats.length → s.rowNonzeros = Except.ok (s.row_stats.getD 0 [])))
    ∧ ((s.rowMean = Except.error "Mean not calculated in this StatsResult"
        ↔ s.row_stats.length < 2)
      ∧ (2 ≤ s.row_stats.length → s.rowMean = Except.ok (s.row_stats.getD 1 [])))
    ∧ ((s.rowVariance = Except.error "Variance not calculated in this StatsResult"
        ↔ s.row_stats.length < 3)
      ∧ (3 ≤ s.row_stats.length → s.rowVariance = Except.ok (s.row_stats.getD 2 [])))
    ∧ ((s.colNonzeros = Except.error "Nonzero not calculated in this StatsResult"
        ↔ s.col_stats.length < 1)
      ∧ (1 ≤ s.col_stats.length → s.colNonzeros = Except.ok (s.col_stats.getD 0 [])))
    ∧ ((s.colMean = Except.error "Mean not calculated in this StatsResult"
        ↔ s.col_stats.length < 2)
      ∧ (2 ≤ s.col_stats.length → s.colMean = Except.ok (s.col_stats.getD 1 [])))
    ∧ ((s.colVariance = Except.error "Variance not calculated in this StatsResult"
        ↔ s.col_stats.length < 3)
      ∧ (3 ≤ s.col_stats.length → s.colVariance = Except.ok (s.col_stats.getD 2 []))) := by
  refine ⟨⟨?_, ?_⟩, ⟨?_, ?_⟩, ⟨?_, ?_⟩, ⟨?_, ?_⟩, ⟨?_, ?_⟩, ⟨?_, ?_⟩⟩ <;>
    simp only [StatsResult.rowNonzeros, StatsResult.rowMean,
      StatsResult.rowVariance, StatsResult.colNonzeros, StatsResult.colMean,
      StatsResult.colVariance] <;>
    split <;> simp_all

theorem C5_stats_accessors_witness :
    3 ≤ statsEx.row_stats.length
      ∧ statsEx.rowVariance = Except.ok (statsEx.row_stats.getD 2 []) :=
  ⟨by decide, (C5_stats_accessors statsEx).2.2.1.2 (by decide)⟩

/-- C6: `transpose()` produces a StatsResult whose `row_stats` is the
original `col_stats` and whose `col_stats` is the original `row_stats`,
and transposing twice is structurally equal to the original. -/
theorem C6_transpose_involutive (s : StatsResult) :
    s.transpose.row_stats = s.col_stats
      ∧ s.transpose.col_stats = s.row_stats
      ∧ s.transpose.transpose = s :=
  ⟨rfl, rfl, rfl⟩

/-- C7: each minimum stage's boolean result equals the upstream's boolean
result on every call; and when the upstream returns false the stage
returns false, leaves the chunk untouched, and performs no parameter
lookup (its outcome does not depend on the provider at all). -/
theorem C7_load_propagates (fit : MatrixTransformFit) (u : Bool × Chunk) :
    ((Min.load fit u).1 = u.1
      ∧ (MinByRow.load fit u).1 = u.1
      ∧ (MinByCol.load fit u).1 = u.1)
    ∧ (u.1 = false →
        ∀ fit2 : MatrixTransformFit,
          Min.load fit2 u = (false, u.2)
          ∧ MinByRow.load fit2 u = (false, u.2)
          ∧ MinByCol.load fit2 u = (false, u.2)) := by
  rcases u with ⟨b, c⟩
  cases b <;>
    simp [Min.load, MinByRow.load, MinByCol.load]

theorem C7_load_propagates_witness :
    ((false : Bool), chunkEx).1 = false
      ∧ Min.load fitEx2 (false, chunkEx) = (false, chunkEx) :=
  ⟨rfl, ((C7_load_propagates fitEx (false, chunkEx)).2 rfl fitEx2).1⟩

/-- C8: for every chunk successfully pulled through any of the three
minimum stages, only the value array changes: the row-index array, the
capacity, and the current column index after `load()` are identical to
what the upstream produced. -/
theorem C8_frame (fit : MatrixTransformFit) (c : Chunk) (hwf : c.wf) :
    ((Min.load fit (true, c)).2.row = c.row
      ∧ (Min.load fit (true, c)).2.col = c.col
      ∧ (Min.load fit (true, c)).2.capacity = c.capacity)
    ∧ ((MinByRow.load fit (true, c)).2.row = c.row
      ∧ (MinByRow.load fit (true, c)).2.col = c.col
      ∧ (MinByRow.load fit (true, c)).2.capacity = c.capacity)
    ∧ ((MinByCol.load fit (true, c)).2.row = c.row
      ∧ (MinByCol.load fit (true, c)).2.col = c.col
      ∧ (MinByCol.load fit (true, c)).2.capacity = c.capacity) := by
  unfold Chunk.wf at hwf
  simp [Min.load, MinByRow.load, MinByCol.load, Chunk.capacity, hwf]

theorem C8_frame_witness :
    chunkEx.wf
      ∧ (MinByRow.load fitEx (true, chunkEx)).2.row = chunkEx.row
      ∧ (MinByRow.load fitEx (true, chunkEx)).2.capacity = chunkEx.capacity :=
  ⟨by decide, (C8_frame fitEx chunkEx (by decide)).2.1.1,
    (C8_frame fitEx chunkEx (by decide)).2.1.2.2⟩

/-- C9: every stage queries the provider exclusively at parameter index 0:
two providers that agree on index 0 (globally, on every row, and on every
column respectively) give identical stage outcomes on every upstream
outcome, whatever they return at other parameter indices. -/
theorem C9_param_index_zero (fit fit2 : MatrixTransformFit)
    (hg : fit.global_params 0 = fit2.global_params 0)
    (hr : ∀ r, fit.row_params 0 r = fit2.row_params 0 r)
    (hc : ∀ k, fit.col_params 0 k = fit2.col_params 0 k)
    (u : Bool × Chunk) :
    Min.load fit u = Min.load fit2 u
      ∧ MinByRow.load fit u = MinByRow.load fit2 u
      ∧ MinByCol.load fit u = MinByCol.load fit2 u := by
  rcases u with ⟨b, c⟩
  cases b
  · exact ⟨rfl, rfl, rfl⟩
  · refine ⟨?_, ?_, ?_⟩ <;>
      simp only [Min.load, MinByRow.load, MinByCol.load, Bool.not_true,
        Bool.false_eq_true, if_false, Prod.mk.injEq, true_and, hg, hc]
    exact congrArg (fun l => Chunk.mk l c.row c.col)
      (congrArg (fun F => List.zipWith F c.val c.row)
        (funext fun a => funext fun b => by rw [hr b]))

theorem C9_param_index_zero_witness :
    fitEx.global_params 0 = fitEx2.global_params 0
      ∧ MinByRow.load fitEx (true, chunkEx) = MinByRow.load fitEx2 (true, chunkEx) :=
  ⟨by decide,
    (C9_param_index_zero fitEx fitEx2 (by decide) (fun r => rfl) (fun k => rfl)
      (true, chunkEx)).2.1⟩

/-- C10: the computed statistics of a StatsResult form a prefix chain of
(nonzeros, mean, variance) in each orientation: if variance is available
so are mean and nonzeros, and if mean is available so is nonzeros, because
availability is encoded solely by the number of populated statistic rows. -/
theorem C10_stats_chain (s : StatsResult) :
    ((s.rowVariance.isOk = true → s.rowMean.isOk = true ∧ s.rowNonzeros.isOk = true)
      ∧ (s.rowMean.isOk = true → s.rowNonzeros.isOk = true))
    ∧ ((s.colVariance.isOk = true → s.colMean.isOk = true ∧ s.colNonzeros.isOk = true)
      ∧ (s.colMean.isOk = true → s.colNonzeros.isOk = true)) := by
  refine ⟨⟨?_, ?_⟩, ⟨?_, ?_⟩⟩ <;>
    simp only [StatsResult.rowNonzeros, StatsResult.rowMean,
      StatsResult.rowVariance, StatsResult.colNonzeros, StatsResult.colMean,
      StatsResult.colVariance, isOk_ite] <;>
    omega

theorem C10_stats_chain_witness :
    statsEx.rowVariance.isOk = true
      ∧ statsEx.rowMean.isOk = true ∧ statsEx.rowNonzeros.isOk = true :=
  ⟨by decide, (C10_stats_chain statsEx).1.1 (by decide)⟩

end BPCells
